import Mathlib

/-!
Marketing-calendar backend: a shallow embedding of the request handlers
in src/app/backend/server.py (a FastAPI CRUD backend over MongoDB).

The document store is modelled as explicit lists of documents; each
request handler is a pure function that takes the database state (plus
the values the runtime supplies: the generated uuid and the current
clock reading) and returns its response together with the successor
state.  HTTPException is modelled by HTTPError (status code and detail
string); a handler that can raise returns an Except paired with the
database as the request leaves it.

Timestamps are modelled as Nat clock readings.  In the Python code a
stored document carries isoformat strings which are parsed back with
datetime.fromisoformat on every read; that round trip is the identity,
so the model stores the clock reading directly.
-/

namespace MarketingCalendar

/-- A campaign document, mirroring the pydantic model `Campaign`.
`description` and `time` are optional strings in the source, hence
`Option String` here; all other string fields are required. -/
structure Campaign where
  id : String
  title : String
  description : Option String
  channel : String
  status : String
  date : String
  time : Option String
  color : String
  created_at : Nat
  updated_at : Nat
  deriving Repr, DecidableEq

/-- The request body accepted by POST /api/campaigns, mirroring the
pydantic model `CampaignCreate` after validation: `title`, `channel`,
`date` and `color` are required string fields, `description` and `time`
are optional with defaults the empty string and 09:00, and `status` is a
required-type string with default draft. -/
structure CampaignCreate where
  title : String
  description : Option String
  channel : String
  status : String
  date : String
  time : Option String
  color : String
  deriving Repr, DecidableEq

/-- The request body accepted by PUT /api/campaigns, mirroring the
pydantic model `CampaignUpdate`: every field optional with default
`none`; `none` means the field was not supplied (or was supplied as
null). -/
structure CampaignUpdate where
  title : Option String
  description : Option String
  channel : Option String
  status : Option String
  date : Option String
  time : Option String
  color : Option String
  deriving Repr, DecidableEq

/-- A channel document, mirroring the pydantic model `Channel`. -/
structure Channel where
  id : String
  name : String
  label : String
  color : String
  is_default : Bool
  created_at : Nat
  deriving Repr, DecidableEq

/-- The request body accepted by POST /api/channels, mirroring the
pydantic model `ChannelCreate`: only `name`, `label`, `color` — the
client cannot set `id` or `is_default`. -/
structure ChannelCreate where
  name : String
  label : String
  color : String
  deriving Repr, DecidableEq

/-- One entry of the static template catalog, mirroring `Template`. -/
structure Template where
  id : String
  name : String
  description : String
  channel : String
  default_content : String
  deriving Repr, DecidableEq

/-- Mirror of HTTPException: a status code and a detail message. -/
structure HTTPError where
  status_code : Nat
  detail : String
  deriving Repr, DecidableEq

/-- The document store: the campaigns and channels collections. -/
structure DB where
  campaigns : List Campaign
  channels : List Channel
  deriving Repr, DecidableEq

/-- One field of a JSON request body: absent, explicit null, or a value.
Pydantic distinguishes the three, so the raw bodies are modelled with
this type. -/
inductive JField (α : Type) where
  | absent : JField α
  | null : JField α
  | val : α → JField α
  deriving Repr, DecidableEq

/-- Validation of a field declared optional with default `d`: an absent
field takes the default, an explicit null is accepted as `none`, a
string is accepted as itself. -/
def JField.optD (d : Option String) : JField String → Option String
  | .absent => d
  | .null => none
  | .val v => some v

/-- Total extraction from a required string field (meaningful only when
the field holds a value; validation is checked separately). -/
def JField.valD (d : String) : JField String → String
  | .val v => v
  | _ => d

/-- The raw JSON body of a POST /api/campaigns request. -/
structure CampaignCreateBody where
  title : JField String
  description : JField String
  channel : JField String
  status : JField String
  date : JField String
  time : JField String
  color : JField String
  deriving Repr, DecidableEq

/-- Validation of one required string field: it fails (yielding its
name) when absent or null. -/
def requiredErr (name : String) : JField String → List String
  | .val _ => []
  | _ => [name]

/-- Names of the fields of a `CampaignCreateBody` that fail pydantic
validation for `CampaignCreate`, in declaration order.  The required
fields `title`, `channel`, `date`, `color` fail when absent or null;
`status` (required type, with a default) fails only on an explicit
null; `description` and `time` are optional with defaults and never
fail. -/
def CampaignCreate.validationErrors (b : CampaignCreateBody) : List String :=
  requiredErr "title" b.title ++
  requiredErr "channel" b.channel ++
  (match b.status with | .null => ["status"] | _ => []) ++
  requiredErr "date" b.date ++
  requiredErr "color" b.color

/-- Pydantic validation of a POST /api/campaigns body against
`CampaignCreate`: rejected (HTTP 422) with the failing field names when
any field fails, otherwise the validated object with defaults applied. -/
def CampaignCreate.parse (b : CampaignCreateBody) :
    Except (List String) CampaignCreate :=
  if CampaignCreate.validationErrors b = [] then
    .ok { title := b.title.valD ""
          description := b.description.optD (some "")
          channel := b.channel.valD ""
          status := b.status.valD "draft"
          date := b.date.valD ""
          time := b.time.optD (some "09:00")
          color := b.color.valD "" }
  else
    .error (CampaignCreate.validationErrors b)

/-- The raw JSON body of a PUT /api/campaigns request. -/
structure CampaignUpdateBody where
  title : JField String
  description : JField String
  channel : JField String
  status : JField String
  date : JField String
  time : JField String
  color : JField String
  deriving Repr, DecidableEq

/-- Validation of a field declared optional with default `none`: absent
and explicit null both become `none`; it never fails. -/
def JField.toUpdateOpt : JField String → Option String
  | .val v => some v
  | _ => none

/-- Pydantic validation of a PUT /api/campaigns body against
`CampaignUpdate`; it always succeeds. -/
def CampaignUpdate.parse (b : CampaignUpdateBody) : CampaignUpdate :=
  { title := b.title.toUpdateOpt
    description := b.description.toUpdateOpt
    channel := b.channel.toUpdateOpt
    status := b.status.toUpdateOpt
    date := b.date.toUpdateOpt
    time := b.time.toUpdateOpt
    color := b.color.toUpdateOpt }

/-- Rewriting of a null field into an absent one, used to state that the
update parser cannot tell the two apart. -/
def JField.nullToAbsent {α : Type} : JField α → JField α
  | .null => .absent
  | f => f

def CampaignUpdateBody.nullsToAbsent (b : CampaignUpdateBody) :
    CampaignUpdateBody :=
  { title := b.title.nullToAbsent
    description := b.description.nullToAbsent
    channel := b.channel.nullToAbsent
    status := b.status.nullToAbsent
    date := b.date.nullToAbsent
    time := b.time.nullToAbsent
    color := b.color.nullToAbsent }

/-- The update body with every field explicitly null. -/
def allNullUpdateBody : CampaignUpdateBody :=
  { title := .null, description := .null, channel := .null, status := .null
    date := .null, time := .null, color := .null }

/-- Mongo update_one with a set document: rewrite the first document
matching `p` with `f`, leave the rest alone. -/
def updateFirst {α : Type} (p : α → Bool) (f : α → α) : List α → List α
  | [] => []
  | x :: xs => if p x then f x :: xs else x :: updateFirst p f xs

/-- Assignment to a key of a Python dict, the dict modelled as an
insertion-ordered association list: an existing key keeps its position
and gets the new value, a new key is appended. -/
def dictInsert (k : String) (v : Nat) : List (String × Nat) → List (String × Nat)
  | [] => [(k, v)]
  | (k', v') :: rest =>
      if k' == k then (k', v) :: rest else (k', v') :: dictInsert k v rest

/-- Handler create_campaign (POST /api/campaigns): build a `Campaign`
from the validated input, with the generated uuid `genId` and both
timestamps stamped with the request time `now`; insert it; return it. -/
def create_campaign (genId : String) (now : Nat) (input : CampaignCreate)
    (db : DB) : Campaign × DB :=
  let c : Campaign :=
    { id := genId
      title := input.title
      description := input.description
      channel := input.channel
      status := input.status
      date := input.date
      time := input.time
      color := input.color
      created_at := now
      updated_at := now }
  (c, { db with campaigns := db.campaigns ++ [c] })

/-- The full POST /api/campaigns endpoint: pydantic validation of the
raw body (422 with the failing field names), then create_campaign. -/
def post_campaigns (genId : String) (now : Nat) (b : CampaignCreateBody)
    (db : DB) : Except (List String) Campaign × DB :=
  match CampaignCreate.parse b with
  | .error errs => (.error errs, db)
  | .ok input =>
      let (c, db') := create_campaign genId now input db
      (.ok c, db')

/-- Handler get_campaign (GET /api/campaigns by id): the first document
with the given id, or a 404. -/
def get_campaign (campaign_id : String) (db : DB) :
    Except HTTPError Campaign :=
  match db.campaigns.find? (fun c => c.id == campaign_id) with
  | none => .error ⟨404, "Campaign not found"⟩
  | some c => .ok c

/-- The set document of update_campaign applied to a stored campaign:
every non-none field of the request overwrites the stored field and
`updated_at` is set to the request time. -/
def Campaign.applyUpdate (c : Campaign) (u : CampaignUpdate) (now : Nat) :
    Campaign :=
  { c with
    title := u.title.getD c.title
    description := u.description.or c.description
    channel := u.channel.getD c.channel
    status := u.status.getD c.status
    date := u.date.getD c.date
    time := u.time.or c.time
    color := u.color.getD c.color
    updated_at := now }

/-- Handler update_campaign (PUT /api/campaigns by id): 404 if no
document has the id; otherwise set the non-null fields plus a fresh
`updated_at` on the first matching document, re-fetch it and return it.
The re-fetch coming back empty would crash the Python handler (an
AttributeError, hence a generic 500); that branch is unreachable. -/
def update_campaign (campaign_id : String) (now : Nat)
    (input : CampaignUpdate) (db : DB) : Except HTTPError Campaign × DB :=
  match db.campaigns.find? (fun c => c.id == campaign_id) with
  | none => (.error ⟨404, "Campaign not found"⟩, db)
  | some _ =>
      let campaigns' := updateFirst (fun c => c.id == campaign_id)
        (fun c => c.applyUpdate input now) db.campaigns
      let db' : DB := { db with campaigns := campaigns' }
      match campaigns'.find? (fun c => c.id == campaign_id) with
      | none => (.error ⟨500, "Internal Server Error"⟩, db')
      | some c => (.ok c, db')

/-- Handler delete_campaign (DELETE /api/campaigns by id): delete the
first matching document; 404 when the deleted count is zero. -/
def delete_campaign (campaign_id : String) (db : DB) :
    Except HTTPError String × DB :=
  if db.campaigns.any (fun c => c.id == campaign_id) then
    (.ok "Campaign deleted successfully",
     { db with campaigns := db.campaigns.eraseP (fun c => c.id == campaign_id) })
  else
    (.error ⟨404, "Campaign not found"⟩, db)

/-- The four default channels synthesized (not persisted) by
get_channels, each stamped with the read time. -/
def default_channels (now : Nat) : List Channel :=
  [ { id := "social", name := "social", label := "Social Media",
      color := "#FF6B6B", is_default := true, created_at := now },
    { id := "email", name := "email", label := "Email",
      color := "#4ECDC4", is_default := true, created_at := now },
    { id := "blog", name := "blog", label := "Blog",
      color := "#FFE66D", is_default := true, created_at := now },
    { id := "ads", name := "ads", label := "Ads",
      color := "#1A535C", is_default := true, created_at := now } ]

/-- Handler get_channels (GET /api/channels): the four synthesized
default channels followed by all persisted custom channels. -/
def get_channels (now : Nat) (db : DB) : List Channel :=
  default_channels now ++ db.channels

/-- Handler create_channel (POST /api/channels): build a `Channel` from
the input — `is_default` takes its model default false, the id is the
generated uuid — insert it, return it. -/
def create_channel (genId : String) (now : Nat) (input : ChannelCreate)
    (db : DB) : Channel × DB :=
  let ch : Channel :=
    { id := genId
      name := input.name
      label := input.label
      color := input.color
      is_default := false
      created_at := now }
  (ch, { db with channels := db.channels ++ [ch] })

/-- Handler delete_channel (DELETE /api/channels by id): 404 when no
persisted document has the id; 400 when the document has `is_default`
true; 400 naming the blocking count when any campaign carries the
document name as its channel; otherwise delete it. -/
def delete_channel (channel_id : String) (db : DB) :
    Except HTTPError String × DB :=
  match db.channels.find? (fun ch => ch.id == channel_id) with
  | none => (.error ⟨404, "Channel not found"⟩, db)
  | some ch =>
      if ch.is_default then
        (.error ⟨400, "Cannot delete default channels"⟩, db)
      else
        let campaigns_count :=
          db.campaigns.countP (fun c => c.channel == ch.name)
        if campaigns_count > 0 then
          (.error ⟨400, "Cannot delete channel. " ++
            (toString campaigns_count ++ " campaigns are using it")⟩, db)
        else
          (.ok "Channel deleted successfully",
           { db with channels := db.channels.eraseP (fun ch => ch.id == channel_id) })

/-- Handler get_templates (GET /api/templates): a fixed catalog, built
fresh on every call, reading and writing nothing. -/
def get_templates : List Template :=
  [ { id := "1", name := "Product Launch",
      description := "Comprehensive campaign for new product launches",
      channel := "social",
      default_content := "Introducing our latest innovation!" },
    { id := "2", name := "Newsletter",
      description := "Weekly or monthly newsletter template",
      channel := "email",
      default_content := "Your weekly update from our team" },
    { id := "3", name := "Blog Post",
      description := "SEO-optimized blog content strategy",
      channel := "blog",
      default_content := "Expert insights on..." },
    { id := "4", name := "Ad Campaign",
      description := "Paid advertising campaign template",
      channel := "ads",
      default_content := "Limited time offer!" } ]

/-- The by_status object of the stats response: a literal with exactly
the keys draft, scheduled, published. -/
structure StatsByStatus where
  draft : Nat
  scheduled : Nat
  published : Nat
  deriving Repr, DecidableEq

/-- The stats response with total, by_status and by_channel; by_channel
is a Python dict, modelled as an insertion-ordered association list. -/
structure Stats where
  total : Nat
  by_status : StatsByStatus
  by_channel : List (String × Nat)
  deriving Repr, DecidableEq

/-- Handler get_stats (GET /api/stats): the total campaign count,
per-status counts for the three literal statuses, and one count per
channel name from get_channels (duplicate names collapse in the dict). -/
def get_stats (now : Nat) (db : DB) : Stats :=
  { total := db.campaigns.length
    by_status :=
      { draft := db.campaigns.countP (fun c => c.status == "draft")
        scheduled := db.campaigns.countP (fun c => c.status == "scheduled")
        published := db.campaigns.countP (fun c => c.status == "published") }
    by_channel :=
      (get_channels now db).foldl
        (fun acc ch =>
          dictInsert ch.name (db.campaigns.countP (fun c => c.channel == ch.name)) acc)
        [] }

/-- Reachability: `Reachable db` holds when `db` can be produced from
the empty store by the mutating API operations alone (with arbitrary
generated ids, clock readings and request bodies). -/
inductive Reachable : DB → Prop where
  | init : Reachable ⟨[], []⟩
  | createCampaign (g : String) (n : Nat) (i : CampaignCreate) {db : DB} :
      Reachable db → Reachable (create_campaign g n i db).2
  | updateCampaign (cid : String) (n : Nat) (i : CampaignUpdate) {db : DB} :
      Reachable db → Reachable (update_campaign cid n i db).2
  | deleteCampaign (cid : String) {db : DB} :
      Reachable db → Reachable (delete_campaign cid db).2
  | createChannel (g : String) (n : Nat) (i : ChannelCreate) {db : DB} :
      Reachable db → Reachable (create_channel g n i db).2
  | deleteChannel (cid : String) {db : DB} :
      Reachable db → Reachable (delete_channel cid db).2

/-- The payload of test_create_campaign in backend_test.py: title,
description, channel social, status, date and time — and no color
field. -/
def testCreateBody : CampaignCreateBody :=
  { title := .val "Test Campaign 1"
    description := .val "Test campaign description"
    channel := .val "social"
    status := .val "draft"
    date := .val "2026-10-13"
    time := .val "10:00"
    color := .absent }

/-- A stored campaign on the social channel carrying the default color
of that channel. -/
def c3Stored : Campaign :=
  { id := "c3", title := "Test Campaign 1"
    description := some "Test campaign description"
    channel := "social", status := "draft", date := "2026-10-13"
    time := some "10:00", color := "#FF6B6B"
    created_at := 0, updated_at := 0 }

/-- The payload of test_update_campaign in backend_test.py: new title,
channel email, status scheduled, nothing else. -/
def c3Update : CampaignUpdate :=
  { title := some "Updated Test Campaign", description := none
    channel := some "email", status := some "scheduled"
    date := none, time := none, color := none }

/-- A minimal valid create payload, used as a round-trip witness. -/
def c7Input : CampaignCreate :=
  { title := "t", description := some "", channel := "social"
    status := "draft", date := "2026-01-01", time := some "09:00"
    color := "#FF6B6B" }

/-- A persisted custom channel, used in concrete witnesses. -/
def chW : Channel :=
  { id := "cust1", name := "promo", label := "Promo", color := "#123456"
    is_default := false, created_at := 0 }

/-- A campaign using the name of `chW` as its channel. -/
def campW : Campaign :=
  { id := "k1", title := "t", description := some "", channel := "promo"
    status := "draft", date := "2026-01-01", time := some "09:00"
    color := "#123456", created_at := 0, updated_at := 0 }

/-! Helper lemmas -/

theorem find?_updateFirst {α : Type} (p : α → Bool) (f : α → α) (l : List α)
    (c : α) (hc : l.find? p = some c) (hf : p (f c) = true) :
    (updateFirst p f l).find? p = some (f c) := by
  induction l with
  | nil => simp at hc
  | cons x xs ih =>
      by_cases hx : p x = true
      · rw [List.find?_cons_of_pos _ hx] at hc
        obtain rfl : x = c := by injection hc
        simp [updateFirst, hx, hf]
      · rw [List.find?_cons_of_neg _ hx] at hc
        simp [updateFirst, hx, ih hc]

theorem lookup_dictInsert_self (k : String) (v : Nat) (l : List (String × Nat)) :
    (dictInsert k v l).lookup k = some v := by
  induction l with
  | nil => simp [dictInsert]
  | cons kv rest ih =>
      obtain ⟨k', v'⟩ := kv
      by_cases hk : k' = k
      · subst hk; simp [dictInsert]
      · have hkk : (k == k') = false := beq_eq_false_iff_ne.mpr (Ne.symm hk)
        have hkk' : (k' == k) = false := beq_eq_false_iff_ne.mpr hk
        simp [dictInsert, hkk', List.lookup_cons, hkk, ih]

theorem lookup_dictInsert_ne (k k' : String) (v : Nat) (l : List (String × Nat))
    (h : k' ≠ k) : (dictInsert k v l).lookup k' = l.lookup k' := by
  have hne : (k' == k) = false := beq_eq_false_iff_ne.mpr h
  induction l with
  | nil => simp [dictInsert, List.lookup_cons, hne]
  | cons kv rest ih =>
      obtain ⟨k₀, v₀⟩ := kv
      by_cases hk : k₀ = k
      · subst hk
        simp [dictInsert, List.lookup_cons, hne]
      · have hk0 : (k₀ == k) = false := beq_eq_false_iff_ne.mpr hk
        cases hc : k' == k₀ <;>
          simp [dictInsert, hk0, List.lookup_cons, hc, ih]

theorem lookup_dictInsert_isSome (k k₀ : String) (v : Nat)
    (l : List (String × Nat)) :
    ((dictInsert k₀ v l).lookup k).isSome ↔ k = k₀ ∨ (l.lookup k).isSome := by
  by_cases hk : k = k₀
  · subst hk; simp [lookup_dictInsert_self]
  · simp [lookup_dictInsert_ne _ _ _ _ hk, hk]

theorem lookup_statsFold_eq_count (count : String → Nat) :
    ∀ (chs : List Channel) (acc : List (String × Nat)),
      (∀ k v, acc.lookup k = some v → v = count k) →
      ∀ k v,
        (chs.foldl (fun a ch => dictInsert ch.name (count ch.name) a) acc).lookup k
          = some v → v = count k := by
  intro chs
  induction chs with
  | nil => exact fun acc hacc => hacc
  | cons ch rest ih =>
      intro acc hacc k v h
      refine ih _ ?_ k v h
      intro k' v' h'
      by_cases hk : k' = ch.name
      · subst hk
        rw [lookup_dictInsert_self] at h'
        injection h' with h''
        exact h''.symm
      · rw [lookup_dictInsert_ne _ _ _ _ hk] at h'
        exact hacc _ _ h'

theorem lookup_statsFold_isSome (count : String → Nat) :
    ∀ (chs : List Channel) (acc : List (String × Nat)) (k : String),
      ((chs.foldl (fun a ch => dictInsert ch.name (count ch.name) a) acc).lookup k).isSome
        ↔ (∃ ch ∈ chs, ch.name = k) ∨ (acc.lookup k).isSome := by
  intro chs
  induction chs with
  | nil => simp
  | cons ch rest ih =>
      intro acc k
      simp only [List.foldl_cons, List.mem_cons, ih, lookup_dictInsert_isSome]
      constructor
      · rintro (⟨ch', hm, hn⟩ | h | h)
        · exact Or.inl ⟨ch', Or.inr hm, hn⟩
        · exact Or.inl ⟨ch, Or.inl rfl, h.symm⟩
        · exact Or.inr h
      · rintro (⟨ch', hm, hn⟩ | h)
        · rcases hm with rfl | hm
          · exact Or.inr (Or.inl hn.symm)
          · exact Or.inl ⟨ch', hm, hn⟩
        · exact Or.inr (Or.inr h)

theorem countP_three_statuses_le (l : List Campaign) :
    l.countP (fun c => c.status == "draft")
      + l.countP (fun c => c.status == "scheduled")
      + l.countP (fun c => c.status == "published") ≤ l.length := by
  induction l with
  | nil => simp
  | cons c rest ih =>
      simp only [List.countP_cons, List.length_cons]
      by_cases h1 : c.status = "draft" <;>
        by_cases h2 : c.status = "scheduled" <;>
        by_cases h3 : c.status = "published" <;>
        simp_all <;> omega

theorem in_use_msg_ne (s : String) :
    "Cannot delete channel. " ++ s ≠ "Cannot delete default channels" := by
  intro h
  have hd := congrArg String.data h
  rw [String.data_append] at hd
  have ht := congrArg (List.take 15) hd
  rw [List.take_append_of_le_length (by decide)] at ht
  revert ht
  decide

theorem mem_keys_dictInsert (k k' : String) (v : Nat)
    (l : List (String × Nat)) :
    k' ∈ (dictInsert k v l).map Prod.fst ↔ k' = k ∨ k' ∈ l.map Prod.fst := by
  induction l with
  | nil => simp [dictInsert]
  | cons kv rest ih =>
      obtain ⟨k₀, v₀⟩ := kv
      by_cases hk : k₀ = k
      · subst hk
        simp only [dictInsert, beq_self_eq_true, if_true, List.map_cons,
          List.mem_cons]
        tauto
      · have hk0 : (k₀ == k) = false := beq_eq_false_iff_ne.mpr hk
        simp only [dictInsert, hk0, Bool.false_eq_true, if_false,
          List.map_cons, List.mem_cons, ih]
        tauto

theorem nodup_keys_dictInsert (k : String) (v : Nat) (l : List (String × Nat))
    (h : (l.map Prod.fst).Nodup) : ((dictInsert k v l).map Prod.fst).Nodup := by
  induction l with
  | nil => simp [dictInsert]
  | cons kv rest ih =>
      obtain ⟨k₀, v₀⟩ := kv
      simp only [List.map_cons, List.nodup_cons] at h
      by_cases hk : k₀ = k
      · subst hk
        simp only [dictInsert, beq_self_eq_true, if_true, List.map_cons,
          List.nodup_cons]
        exact h
      · have hk0 : (k₀ == k) = false := beq_eq_false_iff_ne.mpr hk
        simp only [dictInsert, hk0, Bool.false_eq_true, if_false,
          List.map_cons, List.nodup_cons]
        refine ⟨?_, ih h.2⟩
        rw [mem_keys_dictInsert]
        rintro (rfl | hm)
        · exact hk rfl
        · exact h.1 hm

theorem nodup_keys_statsFold (count : String → Nat) :
    ∀ (chs : List Channel) (acc : List (String × Nat)),
      (acc.map Prod.fst).Nodup →
      (((chs.foldl (fun a ch => dictInsert ch.name (count ch.name) a) acc).map
          Prod.fst).Nodup) := by
  intro chs
  induction chs with
  | nil => exact fun acc h => h
  | cons ch rest ih => exact fun acc h => ih _ (nodup_keys_dictInsert _ _ _ h)

theorem update_campaign_channels_eq (cid : String) (n : Nat)
    (i : CampaignUpdate) (db : DB) :
    ((update_campaign cid n i db).2).channels = db.channels := by
  unfold update_campaign
  split
  · rfl
  · dsimp only
    split <;> rfl

theorem delete_campaign_channels_eq (cid : String) (db : DB) :
    ((delete_campaign cid db).2).channels = db.channels := by
  unfold delete_campaign
  split <;> rfl

theorem delete_channel_channels_subset (cid : String) (db : DB) :
    ∀ ch ∈ ((delete_channel cid db).2).channels, ch ∈ db.channels := by
  unfold delete_channel
  split
  · exact fun ch h => h
  · split
    · exact fun ch h => h
    · dsimp only
      split
      · exact fun ch h => h
      · exact fun ch h => List.mem_of_mem_eraseP h

theorem reachable_no_default_channel {db : DB} (h : Reachable db) :
    ∀ ch ∈ db.channels, ch.is_default = false := by
  induction h with
  | init => intro ch hm; simp at hm
  | createCampaign g n i _ ih => exact ih
  | updateCampaign cid n i _ ih =>
      intro ch hm
      rw [update_campaign_channels_eq] at hm
      exact ih ch hm
  | deleteCampaign cid _ ih =>
      intro ch hm
      rw [delete_campaign_channels_eq] at hm
      exact ih ch hm
  | createChannel g n i _ ih =>
      intro ch hm
      rcases List.mem_append.mp hm with hm | hm
      · exact ih ch hm
      · rcases List.mem_singleton.mp hm with rfl
        rfl
  | deleteChannel cid _ ih =>
      intro ch hm
      exact ih ch (delete_channel_channels_subset cid _ ch hm)

/-- Helper: on an id whose first match is `c`, update_campaign answers
with the merged record and rewrites exactly that document. -/
theorem update_campaign_ok (cid : String) (now : Nat) (u : CampaignUpdate)
    (db : DB) (c : Campaign)
    (h : db.campaigns.find? (fun x => x.id == cid) = some c) :
    update_campaign cid now u db
      = (Except.ok (c.applyUpdate u now),
         { db with campaigns := (updateFirst (fun x => x.id == cid)
             (fun x => x.applyUpdate u now) db.campaigns) }) := by
  have hp := List.find?_some h
  have hf : ((c.applyUpdate u now).id == cid) = true := hp
  unfold update_campaign
  rw [h]
  dsimp only
  rw [find?_updateFirst _ _ _ _ h hf]

/-! Claims -/

/-- Claim C1, code-bug evidence: a campaign-create request with channel
social and no explicit color — the exact payload the test file
backend_test.py sends and expects to succeed with color #FF6B6B — does
not succeed: `color` is a required field of `CampaignCreate`, so
validation rejects the body (HTTP 422) naming `color`, and the database
is untouched.  create_campaign contains no channel-to-color lookup at
all. -/
theorem create_missing_color_rejected :
    (post_campaigns "a-fresh-uuid" 0 testCreateBody ⟨[], []⟩).1
        = Except.error ["color"]
      ∧ (post_campaigns "a-fresh-uuid" 0 testCreateBody ⟨[], []⟩).2 = ⟨[], []⟩ :=
  ⟨rfl, rfl⟩

/-- Claim C2, counterexample: on the empty store, deleting the channel
id social fails with 404 Channel not found, not with the claimed 400
Cannot delete default channels — default channels are synthesized by
get_channels, never persisted, so the id is absent from the channels
collection. -/
theorem delete_default_channel_cex :
    delete_channel "social" ⟨[], []⟩
        = (Except.error ⟨404, "Channel not found"⟩, ⟨[], []⟩)
      ∧ delete_channel "social" ⟨[], []⟩
          ≠ (Except.error ⟨400, "Cannot delete default channels"⟩, ⟨[], []⟩) := by
  refine ⟨rfl, fun h => ?_⟩
  rw [show delete_channel "social" ⟨[], []⟩
        = (Except.error ⟨404, "Channel not found"⟩, ⟨[], []⟩) from rfl] at h
  simp at h

/-- Claim C2 as amended: for every default channel id (social, email,
blog, ads) and every database state in which no persisted channel
document carries that id — which is every state the API can produce,
since default channels are synthesized at read time and never stored —
delete_channel fails with NotFound (HTTP 404, Channel not found), never
deleting anything, regardless of whether any campaign uses the
channel. -/
theorem delete_default_id_not_found (cid : String) (db : DB)
    (_hid : cid = "social" ∨ cid = "email" ∨ cid = "blog" ∨ cid = "ads")
    (habs : db.channels.find? (fun ch => ch.id == cid) = none) :
    delete_channel cid db = (Except.error ⟨404, "Channel not found"⟩, db) := by
  unfold delete_channel
  rw [habs]

theorem delete_default_id_not_found_witness :
    delete_channel "social" ⟨[], []⟩
      = (Except.error ⟨404, "Channel not found"⟩, ⟨[], []⟩) :=
  delete_default_id_not_found "social" ⟨[], []⟩ (Or.inl rfl) rfl

/-- Claim C3, code-bug evidence: updating the channel of a campaign does
not refresh its color.  On a stored social campaign with color #FF6B6B,
the exact update backend_test.py sends (title, channel email, status
scheduled) yields a record whose channel is email but whose color is
still #FF6B6B, not the #4ECDC4 the test (and the spec) expect;
update_campaign only sets the supplied fields plus updated_at. -/
theorem update_channel_keeps_color :
    (update_campaign "c3" 7 c3Update ⟨[c3Stored], []⟩).1
        = Except.ok
            { id := "c3", title := "Updated Test Campaign"
              description := some "Test campaign description"
              channel := "email", status := "scheduled", date := "2026-10-13"
              time := some "10:00", color := "#FF6B6B"
              created_at := 0, updated_at := 7 }
      ∧ "#FF6B6B" ≠ "#4ECDC4" :=
  ⟨rfl, by decide⟩

/-- Claim C4, confirmed: deleting a persisted custom channel (with
`is_default` false) fails with 400 and leaves the store untouched when
a positive number of campaigns carry its name — the message stating the
count — and succeeds, erasing the document, when no campaign does. -/
theorem delete_custom_channel_spec (cid : String) (db : DB) (ch : Channel)
    (hfind : db.channels.find? (fun x => x.id == cid) = some ch)
    (hdef : ch.is_default = false) :
    (0 < db.campaigns.countP (fun c => c.channel == ch.name) →
        delete_channel cid db
          = (Except.error ⟨400, "Cannot delete channel. "
              ++ (toString (db.campaigns.countP (fun c => c.channel == ch.name))
                  ++ " campaigns are using it")⟩, db))
      ∧ (db.campaigns.countP (fun c => c.channel == ch.name) = 0 →
          delete_channel cid db
            = (Except.ok "Channel deleted successfully",
               { db with channels := db.channels.eraseP (fun x => x.id == cid) })) := by
  unfold delete_channel
  rw [hfind]
  dsimp only
  rw [hdef, if_neg Bool.false_ne_true]
  constructor
  · intro hpos
    rw [if_pos hpos]
  · intro hzero
    rw [hzero, if_neg (lt_irrefl 0)]

theorem delete_custom_channel_spec_witness :
    delete_channel "cust1" ⟨[campW], [chW]⟩
      = (Except.error ⟨400, "Cannot delete channel. "
          ++ (toString ((⟨[campW], [chW]⟩ : DB).campaigns.countP
                (fun c => c.channel == chW.name))
              ++ " campaigns are using it")⟩, ⟨[campW], [chW]⟩) :=
  (delete_custom_channel_spec "cust1" ⟨[campW], [chW]⟩ chW rfl rfl).1 (by decide)

/-- Claim C5, confirmed: get_stats reports the exact campaign count as
total; by_status holds exactly the three keys draft, scheduled,
published with the per-status counts (so any other status value is in
total but in no by_status entry, and the three counts sum to at most
total); and by_channel holds exactly one entry per channel name listed
by get_channels — defaults and custom, zero counts included — each
entry being the count of campaigns whose channel equals that name. -/
theorem get_stats_spec (now : Nat) (db : DB) :
    (get_stats now db).total = db.campaigns.length
      ∧ (get_stats now db).by_status.draft
          = db.campaigns.countP (fun c => c.status == "draft")
      ∧ (get_stats now db).by_status.scheduled
          = db.campaigns.countP (fun c => c.status == "scheduled")
      ∧ (get_stats now db).by_status.published
          = db.campaigns.countP (fun c => c.status == "published")
      ∧ (get_stats now db).by_status.draft
          + (get_stats now db).by_status.scheduled
          + (get_stats now db).by_status.published ≤ (get_stats now db).total
      ∧ ((get_stats now db).by_channel.map Prod.fst).Nodup
      ∧ (∀ k, ((get_stats now db).by_channel.lookup k).isSome
            ↔ ∃ ch ∈ get_channels now db, ch.name = k)
      ∧ ∀ k v, (get_stats now db).by_channel.lookup k = some v
          → v = db.campaigns.countP (fun c => c.channel == k) := by
  unfold get_stats
  dsimp only
  refine ⟨rfl, rfl, rfl, rfl, countP_three_statuses_le db.campaigns, ?_, ?_, ?_⟩
  · exact nodup_keys_statsFold
      (fun s => db.campaigns.countP (fun c => c.channel == s))
      (get_channels now db) [] (by simp)
  · intro k
    have h := lookup_statsFold_isSome
      (fun s => db.campaigns.countP (fun c => c.channel == s))
      (get_channels now db) [] k
    simpa using h
  · intro k v h
    exact lookup_statsFold_eq_count
      (fun s => db.campaigns.countP (fun c => c.channel == s))
      (get_channels now db) [] (fun k' v' h' => by simp at h') k v h

theorem get_stats_spec_witness :
    (1 : Nat) = (⟨[campW], [chW]⟩ : DB).campaigns.countP
        (fun c => c.channel == "promo") :=
  (get_stats_spec 0 ⟨[campW], [chW]⟩).2.2.2.2.2.2.2 "promo" 1 rfl

/-- Claim C6, confirmed: update_campaign on an existing id returns the
stored record with exactly the supplied (non-null) fields overwritten,
`created_at` and every unsupplied field kept, and `updated_at` set to
the request time; the store changes only at that first matching
document.  On an absent id it answers 404 and returns the store
unchanged. -/
theorem update_campaign_spec (cid : String) (now : Nat) (u : CampaignUpdate)
    (db : DB) :
    (db.campaigns.find? (fun c => c.id == cid) = none →
        update_campaign cid now u db
          = (Except.error ⟨404, "Campaign not found"⟩, db))
      ∧ ∀ c, db.campaigns.find? (fun c => c.id == cid) = some c →
          update_campaign cid now u db
            = (Except.ok
                { id := c.id
                  title := u.title.getD c.title
                  description := u.description.or c.description
                  channel := u.channel.getD c.channel
                  status := u.status.getD c.status
                  date := u.date.getD c.date
                  time := u.time.or c.time
                  color := u.color.getD c.color
                  created_at := c.created_at
                  updated_at := now },
               { db with campaigns := (updateFirst (fun x => x.id == cid)
                   (fun x => x.applyUpdate u now) db.campaigns) }) := by
  constructor
  · intro h
    unfold update_campaign
    rw [h]
  · intro c h
    exact update_campaign_ok cid now u db c h

theorem update_campaign_spec_witness :
    (update_campaign "nope" 7 c3Update ⟨[c3Stored], []⟩
        = (Except.error ⟨404, "Campaign not found"⟩, ⟨[c3Stored], []⟩))
      ∧ update_campaign "c3" 7 c3Update ⟨[c3Stored], []⟩
          = (Except.ok
              { id := c3Stored.id
                title := c3Update.title.getD c3Stored.title
                description := c3Update.description.or c3Stored.description
                channel := c3Update.channel.getD c3Stored.channel
                status := c3Update.status.getD c3Stored.status
                date := c3Update.date.getD c3Stored.date
                time := c3Update.time.or c3Stored.time
                color := c3Update.color.getD c3Stored.color
                created_at := c3Stored.created_at
                updated_at := 7 },
             { campaigns := (updateFirst (fun x => x.id == "c3")
                 (fun x => x.applyUpdate c3Update 7) [c3Stored])
               channels := [] }) :=
  ⟨(update_campaign_spec "nope" 7 c3Update ⟨[c3Stored], []⟩).1 rfl,
   (update_campaign_spec "c3" 7 c3Update ⟨[c3Stored], []⟩).2 c3Stored rfl⟩

/-- Claim C7, confirmed: a campaign created by create_campaign under a
generated id not already present is returned verbatim by an immediately
following get_campaign — equal in every field, hence in particular in
every field except possibly `updated_at`. -/
theorem create_get_roundtrip (g : String) (now : Nat) (input : CampaignCreate)
    (db : DB) (hfresh : db.campaigns.find? (fun c => c.id == g) = none) :
    get_campaign g (create_campaign g now input db).2
      = Except.ok (create_campaign g now input db).1 := by
  unfold get_campaign create_campaign
  dsimp only
  rw [List.find?_append, hfresh]
  simp

theorem create_get_roundtrip_witness :
    get_campaign "w7" (create_campaign "w7" 3 c7Input ⟨[], []⟩).2
      = Except.ok (create_campaign "w7" 3 c7Input ⟨[], []⟩).1 :=
  create_get_roundtrip "w7" 3 c7Input ⟨[], []⟩ rfl

/-- Claim C8, confirmed: get_templates reads no state and takes no
input, so its result is the same on every call: exactly four entries
with ids 1 to 4 and the fixed names, descriptions, channels and
contents. -/
theorem get_templates_fixed :
    get_templates.map Template.id = ["1", "2", "3", "4"]
      ∧ get_templates.length = 4
      ∧ get_templates
          = [ { id := "1", name := "Product Launch"
                description := "Comprehensive campaign for new product launches"
                channel := "social"
                default_content := "Introducing our latest innovation!" },
              { id := "2", name := "Newsletter"
                description := "Weekly or monthly newsletter template"
                channel := "email"
                default_content := "Your weekly update from our team" },
              { id := "3", name := "Blog Post"
                description := "SEO-optimized blog content strategy"
                channel := "blog"
                default_content := "Expert insights on..." },
              { id := "4", name := "Ad Campaign"
                description := "Paid advertising campaign template"
                channel := "ads"
                default_content := "Limited time offer!" } ] :=
  ⟨rfl, rfl, rfl⟩

/-- Claim C9, confirmed: `ChannelCreate` carries only name, label and
color, so create_channel always persists `is_default` false under the
generated id; consequently in every state reachable through the API no
stored channel document has `is_default` true, and delete_channel can
never answer with the Cannot delete default channels violation. -/
theorem default_delete_branch_unreachable :
    (∀ (g : String) (n : Nat) (i : ChannelCreate) (db : DB),
        (create_channel g n i db).1.is_default = false
          ∧ (create_channel g n i db).1.id = g)
      ∧ ∀ db : DB, Reachable db →
          (∀ ch ∈ db.channels, ch.is_default = false)
            ∧ ∀ cid : String,
                (delete_channel cid db).1
                  ≠ Except.error ⟨400, "Cannot delete default channels"⟩ := by
  constructor
  · exact fun g n i db => ⟨rfl, rfl⟩
  · intro db hr
    have hinv := reachable_no_default_channel hr
    refine ⟨hinv, fun cid h => ?_⟩
    unfold delete_channel at h
    cases hf : db.channels.find? (fun ch => ch.id == cid) with
    | none =>
        rw [hf] at h
        exact absurd h (by simp)
    | some ch =>
        rw [hf] at h
        have hd := hinv ch (List.mem_of_find?_eq_some hf)
        dsimp only at h
        rw [hd, if_neg Bool.false_ne_true] at h
        by_cases hc : 0 < db.campaigns.countP (fun c => c.channel == ch.name)
        · rw [if_pos hc] at h
          dsimp only at h
          injection h with h'
          injection h' with hs hdet
          exact in_use_msg_ne _ hdet
        · rw [if_neg hc] at h
          dsimp only at h
          exact absurd h (by simp)

theorem default_delete_branch_unreachable_witness :
    (create_channel "g1" 0 ⟨"promo", "Promo", "#123456"⟩ ⟨[], []⟩).1.is_default
        = false
      ∧ (delete_channel "social" ⟨[], []⟩).1
          ≠ Except.error ⟨400, "Cannot delete default channels"⟩ :=
  ⟨(default_delete_branch_unreachable.1 "g1" 0 ⟨"promo", "Promo", "#123456"⟩
      ⟨[], []⟩).1,
   (default_delete_branch_unreachable.2 ⟨[], []⟩ Reachable.init).2 "social"⟩

/-- Claim C10, confirmed: an explicit null in an update body parses
exactly like an absent field — `CampaignUpdate` cannot distinguish them,
so no field can be cleared to null via update — and the all-null update
on an existing campaign succeeds, rewriting only `updated_at`. -/
theorem update_null_as_absent :
    (∀ b : CampaignUpdateBody,
        CampaignUpdate.parse b = CampaignUpdate.parse b.nullsToAbsent)
      ∧ ∀ (cid : String) (now : Nat) (db : DB) (c : Campaign),
          db.campaigns.find? (fun x => x.id == cid) = some c →
            update_campaign cid now (CampaignUpdate.parse allNullUpdateBody) db
              = (Except.ok { c with updated_at := now },
                 { db with campaigns := (updateFirst (fun x => x.id == cid)
                     (fun x => { x with updated_at := now }) db.campaigns) }) := by
  constructor
  · intro b
    have hfld : ∀ f : JField String, f.nullToAbsent.toUpdateOpt = f.toUpdateOpt := by
      intro f
      cases f <;> rfl
    unfold CampaignUpdate.parse CampaignUpdateBody.nullsToAbsent
    simp only [hfld]
  · intro cid now db c h
    have hfun : (fun x : Campaign =>
          x.applyUpdate (CampaignUpdate.parse allNullUpdateBody) now)
        = (fun x : Campaign => { x with updated_at := now }) :=
      funext fun x => rfl
    have := update_campaign_ok cid now (CampaignUpdate.parse allNullUpdateBody) db c h
    rw [hfun] at this
    exact this

theorem update_null_as_absent_witness :
    update_campaign "c3" 9 (CampaignUpdate.parse allNullUpdateBody)
        ⟨[c3Stored], []⟩
      = (Except.ok { c3Stored with updated_at := 9 },
         { campaigns := (updateFirst (fun x => x.id == "c3")
             (fun x => { x with updated_at := 9 }) [c3Stored])
           channels := [] }) :=
  update_null_as_absent.2 "c3" 9 ⟨[c3Stored], []⟩ c3Stored rfl

end MarketingCalendar
